import Mathlib

/-
Verification of the BCF REST API facade (src/app/main.py): a FastAPI
application exposing two read-only endpoints under the path /bcf:
GET /bcf/versions (a fixed table of supported API versions) and
GET /bcf/VERSION/auth (a fixed authentication-capability record, with the
VERSION path segment ignored).  The development below is a shallow
embedding of the data model, the response serialization and the routing
logic of that file, followed by theorems settling the specification
claims.
-/

namespace BcfApi

/-- JSON values, used to state response bodies exactly.  Object fields are
an ordered association list, so field order in serialized output is
observable, matching the ordered JSON emitted by the server. -/
inductive Json where
  | null : Json
  | str : String → Json
  | bool : Bool → Json
  | arr : List Json → Json
  | obj : List (String × Json) → Json

/-- An HTTP response: a status code and a JSON body. -/
structure Response where
  status : Nat
  body : Json

/-- Consumes a leading http:// or https:// scheme from a character list,
returning the remainder, mirroring the scheme check of pydantic's
AnyHttpUrl type (main.py lines 28, 73-76: allowed schemes are exactly
http and https). -/
def dropHttpScheme : List Char → Option (List Char)
  | 'h' :: 't' :: 't' :: 'p' :: 's' :: ':' :: '/' :: '/' :: rest => some rest
  | 'h' :: 't' :: 't' :: 'p' :: ':' :: '/' :: '/' :: rest => some rest
  | _ => none

/-- Models pydantic's AnyHttpUrl syntactic validation: the value must have
an http or https scheme followed by a nonempty host (the part after the
scheme separator must be nonempty and must not start with a slash). -/
def isValidHttpUrl (s : String) : Bool :=
  match dropHttpScheme s.data with
  | some ('/' :: _) => false
  | some (_ :: _) => true
  | some [] => false
  | none => false

/-- One row of the fixed version table: a dict with keys version_id and
detailed_version (main.py lines 9-18). -/
structure VersionItem where
  version_id : String
  detailed_version : String
deriving DecidableEq

/-- The fixed in-memory table fake_db (main.py lines 9-18). -/
def fake_db : List VersionItem :=
  [⟨"1.0", "https://github.com/BuildingSMART/BCF-API"⟩,
   ⟨"2.1", "https://github.com/BuildingSMART/BCF-API"⟩]

/-- The pydantic model Version (main.py lines 25-28): a required string
version_id and an optional AnyHttpUrl detailed_version (default None). -/
structure Version where
  version_id : String
  detailed_version : Option String

/-- Validation performed by the constructor call Version(**item)
(main.py line 63): the supplied detailed_version value must pass the
AnyHttpUrl syntactic check, otherwise pydantic raises a ValidationError. -/
def validateVersionItem (it : VersionItem) : Except String Version :=
  if isValidHttpUrl it.detailed_version then
    Except.ok ⟨it.version_id, some it.detailed_version⟩
  else
    Except.error "invalid or missing URL scheme"

/-- The list comprehension of get_versions (main.py line 63): each table
row is validated into a Version; the first failure aborts the handler
with a ValidationError. -/
def buildVersions : List VersionItem → Except String (List Version)
  | [] => Except.ok []
  | it :: rest =>
    match validateVersionItem it with
    | Except.error e => Except.error e
    | Except.ok v =>
      match buildVersions rest with
      | Except.error e => Except.error e
      | Except.ok vs => Except.ok (v :: vs)

/-- Serialization of a Version record.  FastAPI serializes the model with
its fields in declaration order; with the default response settings an
optional field whose value is None is emitted as JSON null. -/
def serializeVersion (v : Version) : Json :=
  Json.obj
    [("version_id", Json.str v.version_id),
     ("detailed_version",
       match v.detailed_version with
       | some u => Json.str u
       | none => Json.null)]

/-- Serialization of the Versions wrapper model (main.py lines 40-41):
an object with the single field versions holding the ordered list. -/
def serializeVersions (vs : List Version) : Json :=
  Json.obj [("versions", Json.arr (vs.map serializeVersion))]

/-- FastAPI's default 404 response for unmatched paths. -/
def notFound : Response :=
  ⟨404, Json.obj [("detail", Json.str "Not Found")]⟩

/-- Starlette's default 405 response when a route matches but the HTTP
method is not GET. -/
def methodNotAllowed : Response :=
  ⟨405, Json.obj [("detail", Json.str "Method Not Allowed")]⟩

/-- FastAPI's 500 response produced when an unhandled exception (here a
pydantic ValidationError) escapes a handler. -/
def internalServerError : Response :=
  ⟨500, Json.str "Internal Server Error"⟩

/-- The handler get_versions (main.py lines 62-64), as a function of the
version table it reads: each row is validated into a Version and the
results are wrapped in a Versions response; a validation failure escapes
as a 500-class server error. -/
def get_versions (db : List VersionItem) : Response :=
  match buildVersions db with
  | Except.ok vs => ⟨200, serializeVersions vs⟩
  | Except.error _ => internalServerError

/-- The pydantic model AuthenticationInGet (main.py lines 72-78): five
optional fields, each defaulting to None. -/
structure AuthenticationInGet where
  oauth2_auth_url : Option String
  oauth2_token_url : Option String
  oauth2_dynamic_client_reg_url : Option String
  http_basic_supported : Option Bool
  supported_oauth2_flows : Option (List String)

/-- The literal example payload AuthenticationInGet.Config.schema_extra
(main.py lines 80-94), which get_auth returns verbatim. -/
def authentication_example : AuthenticationInGet :=
  { oauth2_auth_url := some "https://example.com/bcf/oauth2/auth"
    oauth2_token_url := some "https://example.com/bcf/oauth2/token"
    oauth2_dynamic_client_reg_url := some "https://example.com/bcf/oauth2/reg"
    http_basic_supported := some true
    supported_oauth2_flows :=
      some ["authorization_code_grant", "implicit_grant",
            "resource_owner_password_credentials_grant"] }

/-- Serialization of an AuthenticationInGet record, in field declaration
order; with the default response settings a None field is emitted as
JSON null. -/
def serializeAuth (a : AuthenticationInGet) : Json :=
  Json.obj
    [("oauth2_auth_url", match a.oauth2_auth_url with
        | some u => Json.str u
        | none => Json.null),
     ("oauth2_token_url", match a.oauth2_token_url with
        | some u => Json.str u
        | none => Json.null),
     ("oauth2_dynamic_client_reg_url", match a.oauth2_dynamic_client_reg_url with
        | some u => Json.str u
        | none => Json.null),
     ("http_basic_supported", match a.http_basic_supported with
        | some b => Json.bool b
        | none => Json.null),
     ("supported_oauth2_flows", match a.supported_oauth2_flows with
        | some fs => Json.arr (fs.map Json.str)
        | none => Json.null)]

/-- The handler get_auth (main.py lines 102-121): it takes no arguments
(the version path segment is declared in the route but not bound by the
handler) and returns the fixed example payload. -/
def get_auth : Response :=
  ⟨200, serializeAuth authentication_example⟩

/-- Path matching for the parameterized route /bcf/VERSION/auth
(main.py line 98): the path must consist of the literal segment bcf, one
nonempty version segment (Starlette path parameters match one or more
non-slash characters), and the literal segment auth. -/
def matchAuth : List String → Option String
  | ["bcf", v, "auth"] => if v = "" then none else some v
  | _ => none

/-- The application's routing (main.py lines 56-57, 97-98, 130): requests
are matched against the routes in registration order, GET /bcf/versions
first and GET /bcf/VERSION/auth second; an unmatched path yields 404 and
a matched path with a non-GET method yields 405.  A request path is
represented as its list of slash-separated segments. -/
def dispatch (db : List VersionItem) (method : String) (path : List String) : Response :=
  if path = ["bcf", "versions"] then
    if method = "GET" then get_versions db else methodNotAllowed
  else
    match matchAuth path with
    | some _ => if method = "GET" then get_auth else methodNotAllowed
    | none => notFound

/-- The mutable server state: the module-level version table.  The
handlers only ever read it. -/
structure AppState where
  db : List VersionItem

/-- The state at process start: the table holds the fake_db literal. -/
def initialState : AppState :=
  ⟨fake_db⟩

/-- One request handled against the current server state, returning the
state after the request together with the response.  Neither handler
assigns to any module-level name, so the state is passed through
unchanged. -/
def handle (s : AppState) (method : String) (path : List String) : AppState × Response :=
  (s, dispatch s.db method path)

/-- A sequence of requests handled in order, threading the server state,
returning the final state and the list of responses. -/
def runRequests : AppState → List (String × List String) → AppState × List Response
  | s, [] => (s, [])
  | s, r :: rs =>
    let step := handle s r.1 r.2
    let rest := runRequests step.1 rs
    (rest.1, step.2 :: rest.2)

/-- The Version records actually constructed from fake_db by the
get_versions handler (empty in the unreachable validation-failure case). -/
def actualVersions : List Version :=
  match buildVersions fake_db with
  | Except.ok vs => vs
  | Except.error _ => []

/-- Looks up a top-level field of a JSON object. -/
def Json.lookupKey : Json → String → Option Json
  | Json.obj fs, k => List.lookup k fs
  | _, _ => none

/-- A field is present in a serialized body when its key exists at top
level and its value is not JSON null. -/
def hasNonNullKey (j : Json) (k : String) : Bool :=
  match j.lookupKey k with
  | some Json.null => false
  | some _ => true
  | none => false

mutual

/-- Deep check that a JSON value contains no null anywhere. -/
def jsonNoNull : Json → Bool
  | Json.null => false
  | Json.str _ => true
  | Json.bool _ => true
  | Json.arr xs => jsonListNoNull xs
  | Json.obj fs => jsonFieldsNoNull fs

/-- Deep null check over a list of JSON values. -/
def jsonListNoNull : List Json → Bool
  | [] => true
  | x :: xs => jsonNoNull x && jsonListNoNull xs

/-- Deep null check over the fields of a JSON object. -/
def jsonFieldsNoNull : List (String × Json) → Bool
  | [] => true
  | (_, v) :: fs => jsonNoNull v && jsonFieldsNoNull fs

end

/-- A table with a syntactically invalid URL makes the row-by-row
validation of get_versions fail: some entry aborts the comprehension
with a ValidationError. -/
lemma buildVersions_error_of_bad (db : List VersionItem)
    (h : ∃ it ∈ db, isValidHttpUrl it.detailed_version = false) :
    ∃ e, buildVersions db = Except.error e := by
  induction db with
  | nil => rcases h with ⟨it, hmem, _⟩; cases hmem
  | cons a rest ih =>
    rcases h with ⟨it, hmem, hbad⟩
    by_cases hA : isValidHttpUrl a.detailed_version = true
    · rcases List.mem_cons.mp hmem with hEq | hR
      · subst hEq
        rw [hA] at hbad
        cases hbad
      · rcases ih ⟨it, hR, hbad⟩ with ⟨e, he⟩
        exact ⟨e, by simp [buildVersions, validateVersionItem, hA, he]⟩
    · refine ⟨"invalid or missing URL scheme", ?_⟩
      simp [buildVersions, validateVersionItem, hA]

/-- When every table row carries a syntactically valid URL, the
row-by-row validation of get_versions succeeds on the whole table. -/
lemma buildVersions_ok_of_good (db : List VersionItem)
    (h : ∀ it ∈ db, isValidHttpUrl it.detailed_version = true) :
    ∃ vs, buildVersions db = Except.ok vs := by
  induction db with
  | nil => exact ⟨[], rfl⟩
  | cons a rest ih =>
    rcases ih (fun it hit => h it (List.mem_cons_of_mem a hit)) with ⟨vs, hvs⟩
    refine ⟨⟨a.version_id, some a.detailed_version⟩ :: vs, ?_⟩
    simp [buildVersions, validateVersionItem, h a (List.mem_cons_self a rest), hvs]

/-- C1: every GET request to /bcf/versions yields HTTP status 200 with
body exactly the object listing the two fixed entries, version 1.0 first
and version 2.1 second, each pointing at the BCF-API specification URL. -/
theorem get_versions_returns_fixed_table :
    dispatch fake_db "GET" ["bcf", "versions"] =
      ⟨200, Json.obj [("versions", Json.arr
        [Json.obj [("version_id", Json.str "1.0"),
                   ("detailed_version", Json.str "https://github.com/BuildingSMART/BCF-API")],
         Json.obj [("version_id", Json.str "2.1"),
                   ("detailed_version", Json.str "https://github.com/BuildingSMART/BCF-API")]])]⟩ :=
  rfl

/-- C2: every GET request to /bcf/VERSION/auth, for any version segment,
returns as its body exactly the literal capability record declared in
AuthenticationInGet.Config.schema_extra. -/
theorem get_auth_returns_static_payload (v : String) (h : v ≠ "") :
    dispatch fake_db "GET" ["bcf", v, "auth"] =
      ⟨200, Json.obj
        [("oauth2_auth_url", Json.str "https://example.com/bcf/oauth2/auth"),
         ("oauth2_token_url", Json.str "https://example.com/bcf/oauth2/token"),
         ("oauth2_dynamic_client_reg_url", Json.str "https://example.com/bcf/oauth2/reg"),
         ("http_basic_supported", Json.bool true),
         ("supported_oauth2_flows", Json.arr
           [Json.str "authorization_code_grant",
            Json.str "implicit_grant",
            Json.str "resource_owner_password_credentials_grant"])]⟩ := by
  have hb : dispatch fake_db "GET" ["bcf", v, "auth"] = get_auth := by
    simp [dispatch, matchAuth, h]
  rw [hb]
  rfl

/-- Witness for C2 at the concrete version segment 2.1. -/
theorem get_auth_returns_static_payload_witness :
    dispatch fake_db "GET" ["bcf", "2.1", "auth"] =
      ⟨200, Json.obj
        [("oauth2_auth_url", Json.str "https://example.com/bcf/oauth2/auth"),
         ("oauth2_token_url", Json.str "https://example.com/bcf/oauth2/token"),
         ("oauth2_dynamic_client_reg_url", Json.str "https://example.com/bcf/oauth2/reg"),
         ("http_basic_supported", Json.bool true),
         ("supported_oauth2_flows", Json.arr
           [Json.str "authorization_code_grant",
            Json.str "implicit_grant",
            Json.str "resource_owner_password_credentials_grant"])]⟩ :=
  get_auth_returns_static_payload "2.1" (by decide)

/-- C3: the auth endpoint is insensitive to the version path segment:
GET requests to /bcf/V1/auth and /bcf/V2/auth produce identical responses
for any two segment values, and that response has status 200. -/
theorem get_auth_version_independent (v1 v2 : String) (h1 : v1 ≠ "") (h2 : v2 ≠ "") :
    dispatch fake_db "GET" ["bcf", v1, "auth"] = dispatch fake_db "GET" ["bcf", v2, "auth"] ∧
    (dispatch fake_db "GET" ["bcf", v1, "auth"]).status = 200 := by
  have hb1 : dispatch fake_db "GET" ["bcf", v1, "auth"] = get_auth := by
    simp [dispatch, matchAuth, h1]
  have hb2 : dispatch fake_db "GET" ["bcf", v2, "auth"] = get_auth := by
    simp [dispatch, matchAuth, h2]
  rw [hb1, hb2]
  exact ⟨rfl, rfl⟩

/-- Witness for C3 at the nonsensical segment xyz against the plausible
segment 2.1. -/
theorem get_auth_version_independent_witness :
    dispatch fake_db "GET" ["bcf", "xyz", "auth"] =
      dispatch fake_db "GET" ["bcf", "2.1", "auth"] ∧
    (dispatch fake_db "GET" ["bcf", "xyz", "auth"]).status = 200 :=
  get_auth_version_independent "xyz" "2.1" (by decide) (by decide)

/-- C4: if some entry of the version table carries a syntactically
invalid URL, the versions request fails with a server-side 500; when
every entry is well-formed, that error branch is unreachable and the
request succeeds with 200. -/
theorem get_versions_error_handling (db : List VersionItem) :
    ((∃ it ∈ db, isValidHttpUrl it.detailed_version = false) →
      (get_versions db).status = 500) ∧
    ((∀ it ∈ db, isValidHttpUrl it.detailed_version = true) →
      (get_versions db).status = 200) := by
  constructor
  · intro h
    rcases buildVersions_error_of_bad db h with ⟨e, he⟩
    simp [get_versions, he, internalServerError]
  · intro h
    rcases buildVersions_ok_of_good db h with ⟨vs, hvs⟩
    simp [get_versions, hvs]

/-- Witness for C4: a table holding a malformed ftp URL yields 500, and
the actual table fake_db (all entries well-formed) yields 200. -/
theorem get_versions_error_handling_witness :
    (get_versions [⟨"9.9", "ftp://example.com/spec"⟩]).status = 500 ∧
    (get_versions fake_db).status = 200 :=
  ⟨(get_versions_error_handling [⟨"9.9", "ftp://example.com/spec"⟩]).1
      ⟨⟨"9.9", "ftp://example.com/spec"⟩, by simp, by decide⟩,
   (get_versions_error_handling fake_db).2 (by decide)⟩

/-- C5: in the records underlying the two endpoints every optional field
is populated, so no field is ever absent, and neither serialized response
body contains a JSON null anywhere; hence each optional field absent from
an underlying record (there are none) is omitted rather than emitted as
null or empty. -/
theorem optional_fields_present_and_never_null :
    actualVersions.all (fun v => v.detailed_version.isSome) = true ∧
    authentication_example.oauth2_auth_url.isSome = true ∧
    authentication_example.oauth2_token_url.isSome = true ∧
    authentication_example.oauth2_dynamic_client_reg_url.isSome = true ∧
    authentication_example.http_basic_supported.isSome = true ∧
    authentication_example.supported_oauth2_flows.isSome = true ∧
    jsonNoNull (dispatch fake_db "GET" ["bcf", "versions"]).body = true ∧
    jsonNoNull get_auth.body = true := by
  decide

/-- C6: a GET request whose path matches neither the literal route
/bcf/versions nor the parameterized route /bcf/VERSION/auth is answered
with HTTP 404. -/
theorem unmatched_path_returns_404 (p : List String)
    (h1 : p ≠ ["bcf", "versions"]) (h2 : matchAuth p = none) :
    (dispatch fake_db "GET" p).status = 404 := by
  simp [dispatch, h1, h2, notFound]

/-- Witness for C6 at the unknown path /bcf/unknown. -/
theorem unmatched_path_returns_404_witness :
    (dispatch fake_db "GET" ["bcf", "unknown"]).status = 404 :=
  unmatched_path_returns_404 ["bcf", "unknown"] (by decide) (by decide)

/-- Position i of the response list of a request sequence is exactly the
dispatch of request i against the initial table: responses do not depend
on the requests served before them. -/
lemma runRequests_resp (s : AppState) (rs : List (String × List String)) (i : Nat) :
    (runRequests s rs).2[i]? = (Option.map (fun r => dispatch s.db r.1 r.2)) rs[i]? := by
  induction rs generalizing i with
  | nil => simp [runRequests]
  | cons r rest ih =>
    cases i with
    | zero => simp [runRequests, handle]
    | succ n => simpa [runRequests, handle] using ih n

/-- C7: within any sequence of requests served from any starting state,
two positions holding the identical request receive identical responses:
there is no hidden counter or state drift between invocations. -/
theorem repeated_request_same_response (s : AppState)
    (rs : List (String × List String)) (i j : Nat) (h : rs[i]? = rs[j]?) :
    (runRequests s rs).2[i]? = (runRequests s rs).2[j]? := by
  rw [runRequests_resp, runRequests_resp, h]

/-- Witness for C7: serving /bcf/versions twice in a row from the start
state returns the same response both times. -/
theorem repeated_request_same_response_witness :
    (runRequests initialState
      [("GET", ["bcf", "versions"]), ("GET", ["bcf", "versions"])]).2[0]? =
    (runRequests initialState
      [("GET", ["bcf", "versions"]), ("GET", ["bcf", "versions"])]).2[1]? :=
  repeated_request_same_response initialState
    [("GET", ["bcf", "versions"]), ("GET", ["bcf", "versions"])] 0 1 rfl

/-- C8: in every response of the auth endpoint, the oauth2_auth_url field
is present (non-null) exactly when the oauth2_token_url field is present:
the contractual pairing invariant holds of the actual payload. -/
theorem auth_url_pairing (v : String) (h : v ≠ "") :
    (hasNonNullKey (dispatch fake_db "GET" ["bcf", v, "auth"]).body "oauth2_auth_url" = true ↔
     hasNonNullKey (dispatch fake_db "GET" ["bcf", v, "auth"]).body "oauth2_token_url" = true) := by
  have hb : dispatch fake_db "GET" ["bcf", v, "auth"] = get_auth := by
    simp [dispatch, matchAuth, h]
  rw [hb]
  decide

/-- Witness for C8 at the concrete version segment 2.1. -/
theorem auth_url_pairing_witness :
    hasNonNullKey (dispatch fake_db "GET" ["bcf", "2.1", "auth"]).body "oauth2_auth_url" = true ↔
    hasNonNullKey (dispatch fake_db "GET" ["bcf", "2.1", "auth"]).body "oauth2_token_url" = true :=
  auth_url_pairing "2.1" (by decide)

/-- C9: handling a request never mutates the server state: the version
table (the only module-level data the handlers touch) is identical before
and after every request, for every method and path. -/
theorem handlers_are_pure_reads (s : AppState) (m : String) (p : List String) :
    (handle s m p).1 = s :=
  rfl

/-- C10: the literal path /bcf/versions is dispatched to the versions
handler and is never captured by the parameterized auth route: the auth
pattern does not match it at all. -/
theorem versions_route_unambiguous :
    dispatch fake_db "GET" ["bcf", "versions"] = get_versions fake_db ∧
    matchAuth ["bcf", "versions"] = none :=
  ⟨rfl, rfl⟩

end BcfApi
